import Mathlib

/-!
Shallow embedding of `src/pfand.c`, a closed-loop fan speed controller.

The C program samples a CPU temperature once per loop iteration, maps it
to a PWM duty cycle through a piecewise control curve with hysteresis
(a run-on counter) and a kick-start pulse, and writes the duty to a PWM
device file.

Modelling conventions:
* Temperatures are rationals.  The C code computes in `float`, but the
  only temperature producer, `getTemp`, parses the sensor file with
  `fscanf("%d", ...)` and casts the integer to `float`, so every value
  the controller observes is a whole number of degrees; on the small
  integral inputs and constants involved, the program's float
  arithmetic coincides with exact rational arithmetic, which is what we
  embed.
* PWM duties and the run-on counter are C `int`s, embedded as `ℤ`
  (the values involved stay far from any overflow boundary).
* The side effects of a loop iteration on the PWM device are embedded
  as the list of duty values passed to `setFanSpeed`, in call order.
* File I/O outcomes (sensor file missing or unparsable, PWM device not
  openable) are embedded as explicit input data to the functions that
  the C code makes depend on them.
-/

/-- lowest pwm value to use, `MIN_PWM` in pfand.c (the fan may not run with
very low values) -/
def MIN_PWM : ℤ := 50

/-- max pwm value to use, `MAX_PWM` in pfand.c -/
def MAX_PWM : ℤ := 100

/-- pwm used when first turning the fan on, `KICK_PWM` in pfand.c -/
def KICK_PWM : ℤ := 70

/-- lowest temperature to run the fan, `LOW_TEMP` in pfand.c -/
def LOW_TEMP : ℤ := 55

/-- temperature at which the fan should be full speed, `HIGH_TEMP` in pfand.c -/
def HIGH_TEMP : ℤ := 75

/-- loop iteration time in seconds, `LOOPTIME` in pfand.c -/
def LOOPTIME : ℤ := 2

/-- how long the fan should run after dropping below low temp, `RUNONTIME`
in pfand.c -/
def RUNONTIME : ℤ := 30

/-- run-on time converted to loop iterations, `RUNONLOOPS` in pfand.c
(integer division `RUNONTIME/LOOPTIME`) -/
def RUNONLOOPS : ℤ := RUNONTIME / LOOPTIME

/-- Outcome of one attempt to read the sensor file
`/sys/class/hwmon/hwmon0/device/temp_label`: the file may fail to open,
it may open but not parse as a decimal integer under `fscanf("%d", ...)`,
or it may yield an integer number of degrees. -/
inductive SensorRead where
  | noFile : SensorRead
  | parseFail : SensorRead
  | ok : ℤ → SensorRead
deriving DecidableEq

/-- Embedding of `getTemp` from pfand.c: returns the temperature in degrees
Celsius, or `0` if there was a problem (file missing, or `fscanf` did not
return 1).  A successful parse returns `(float)temp` for the scanned
integer `temp`. -/
def getTemp : SensorRead → ℚ
  | SensorRead.noFile => 0
  | SensorRead.parseFail => 0
  | SensorRead.ok v => (v : ℚ)

/-- Embedding of `setFanSpeed` from pfand.c: given whether the PWM device
file `/sys/devices/platform/pwm/pwm.0` could be opened for writing, either
write the line `"50000,<duty>\n"` (a fixed 50 kHz carrier and the duty), or
log the failure and drop the command, writing nothing. -/
def setFanSpeed (devOpen : Bool) (duty : ℤ) : Option String :=
  if devOpen then some ("50000," ++ toString duty ++ "\n") else none

/-- Controller state carried across loop iterations of `main` in pfand.c:
`runOn` is the run-on counter (`runOn` in the C code) and `prevP` the duty
commanded on the previous iteration (`prevP` in the C code). -/
structure CState where
  runOn : ℤ
  prevP : ℤ
deriving DecidableEq

/-- Initial controller state at entry to the control loop in `main`:
`runOn = 0`, `prevP = 0`. -/
def CState.init : CState := { runOn := 0, prevP := 0 }

/-- Embedding of the duty-cycle calculation of one control-loop iteration
(pfand.c, `main`, the `if (temp < LOW_TEMP) ... else if ... else ...`
chain): from the current run-on counter and the temperature, produce the
commanded duty `p` and the updated run-on counter.  The in-band branch
computes `floor(pRange * dt / tRange + MIN_PWM)` in exact arithmetic and
then applies the code's two defensive clamps, and resets the counter to
`RUNONLOOPS`; the high branch leaves the counter untouched. -/
def computePwm (runOn : ℤ) (temp : ℚ) : ℤ × ℤ :=
  if temp < (LOW_TEMP : ℚ) then
    if runOn > 0 then (MIN_PWM, runOn - 1) else (0, runOn)
  else if temp > (HIGH_TEMP : ℚ) then
    (MAX_PWM, runOn)
  else
    let dt : ℚ := temp - (LOW_TEMP : ℚ)
    let pRange : ℚ := (MAX_PWM : ℚ) - (MIN_PWM : ℚ)
    let tRange : ℚ := (HIGH_TEMP : ℚ) - (LOW_TEMP : ℚ)
    let p0 : ℤ := ⌊pRange * dt / tRange + (MIN_PWM : ℚ)⌋
    let p1 : ℤ := if p0 > MAX_PWM then MAX_PWM else p0
    let p2 : ℤ := if p1 < MIN_PWM then MIN_PWM else p1
    (p2, RUNONLOOPS)

/-- One full iteration of the control loop (pfand.c, `main`): compute the
duty from the temperature, command `KICK_PWM` first when the fan is
starting from rest (`p > 0 && prevP == 0`), then command `p`, and record
`p` as the previous duty.  Returns the new state and the duty values
passed to `setFanSpeed`, in call order. -/
def tick (s : CState) (temp : ℚ) : CState × List ℤ :=
  let r := computePwm s.runOn temp
  let kick : List ℤ := if 0 < r.1 ∧ s.prevP = 0 then [KICK_PWM] else []
  ({ runOn := r.2, prevP := r.1 }, kick ++ [r.1])

/-- Duty values passed to `setFanSpeed` by the control loop of pfand.c when
run over a list of per-iteration sensor-read outcomes, starting from state
`s`. -/
def runLoop (s : CState) : List SensorRead → List ℤ
  | [] => []
  | r :: rest => (tick s (getTemp r)).2 ++ runLoop (tick s (getTemp r)).1 rest

/-- Controller state after the control loop of pfand.c processes a list of
sensor-read outcomes, starting from state `s`. -/
def loopState (s : CState) : List SensorRead → CState
  | [] => s
  | r :: rest => loopState (tick s (getTemp r)).1 rest

/-- One control-loop iteration together with its PWM device writes: each
duty the iteration commands is passed to `setFanSpeed`, whose success
depends only on whether the device file opened on that call. -/
def tickDev (s : CState) (r : SensorRead) (devOpen : Bool) :
    CState × List (Option String) :=
  ((tick s (getTemp r)).1, ((tick s (getTemp r)).2).map (setFanSpeed devOpen))

/-- Control loop with PWM device writes, over a list of per-iteration
inputs (sensor-read outcome, device availability): returns the final state
and all write outcomes in order. -/
def runLoopDev (s : CState) : List (SensorRead × Bool) → CState × List (Option String)
  | [] => (s, [])
  | (r, b) :: rest =>
    ((runLoopDev (tickDev s r b).1 rest).1,
      (tickDev s r b).2 ++ (runLoopDev (tickDev s r b).1 rest).2)

/-- Embedding of the daemon-mode behaviour of `main` in pfand.c abstracted
over I/O: after the start-of-day check `getTemp() == 0.0` (which exits with
`EXIT_FAILURE` before anything is written to the PWM device), the program
commands `MAX_PWM` once as a warm-up self-test and then enters the control
loop from the initial state.  Returns the full list of duties passed to
`setFanSpeed`, or `none` when startup aborts with `EXIT_FAILURE`. -/
def pfand (startup : SensorRead) (reads : List SensorRead) :
    Option (List ℤ) :=
  if getTemp startup = 0 then none
  else some (MAX_PWM :: runLoop CState.init reads)

example : computePwm 0 80 = (100, 0) := by decide
example : computePwm 0 60 = (62, 15) := by norm_num [computePwm, LOW_TEMP, HIGH_TEMP, MIN_PWM, MAX_PWM, RUNONLOOPS, RUNONTIME, LOOPTIME]
example : computePwm 3 40 = (50, 2) := by decide
example : computePwm 0 40 = (0, 0) := by decide
example : tick CState.init 80 = ({ runOn := 0, prevP := 100 }, [70, 100]) := by decide
example : pfand (SensorRead.ok 80) [SensorRead.ok 80] = some [100, 70, 100] := by decide
example : pfand SensorRead.noFile [SensorRead.ok 80] = none := by decide

/-! Helper lemmas about the duty-cycle calculation. -/

lemma LOW_TEMP_cast : ((LOW_TEMP : ℤ) : ℚ) = 55 := by norm_num [LOW_TEMP]

lemma HIGH_TEMP_cast : ((HIGH_TEMP : ℤ) : ℚ) = 75 := by norm_num [HIGH_TEMP]

lemma MIN_PWM_cast : ((MIN_PWM : ℤ) : ℚ) = 50 := by norm_num [MIN_PWM]

lemma MAX_PWM_cast : ((MAX_PWM : ℤ) : ℚ) = 100 := by norm_num [MAX_PWM]

/-- In the inclusive temperature band the defensive clamps never fire: the
computed duty is the floor of the interpolation expression exactly as the
code writes it, and the run-on counter is reset. -/
lemma computePwm_in_band (r : ℤ) (t : ℚ) (h1 : (55:ℚ) ≤ t) (h2 : t ≤ (75:ℚ)) :
    computePwm r t = (⌊((100:ℚ) - 50) * (t - 55) / ((75:ℚ) - 55) + 50⌋, RUNONLOOPS) := by
  have hb1 : (50:ℚ) ≤ ((100:ℚ) - 50) * (t - 55) / ((75:ℚ) - 55) + 50 := by
    have ht : (0:ℚ) ≤ t - 55 := by linarith
    have hm := mul_nonneg (by norm_num : (0:ℚ) ≤ (100:ℚ) - 50) ht
    have hd := div_nonneg hm (by norm_num : (0:ℚ) ≤ (75:ℚ) - 55)
    linarith
  have hb2 : ((100:ℚ) - 50) * (t - 55) / ((75:ℚ) - 55) + 50 ≤ 100 := by
    have hnum : ((100:ℚ) - 50) * (t - 55) ≤ 50 * ((75:ℚ) - 55) := by linarith
    have hdiv := (div_le_iff₀ (by norm_num : (0:ℚ) < (75:ℚ) - 55)).mpr hnum
    linarith
  have hf1 : (50:ℤ) ≤ ⌊((100:ℚ) - 50) * (t - 55) / ((75:ℚ) - 55) + 50⌋ := by
    apply Int.le_floor.mpr
    exact_mod_cast hb1
  have hf2 : ⌊((100:ℚ) - 50) * (t - 55) / ((75:ℚ) - 55) + 50⌋ ≤ (100:ℤ) := by
    have h := Int.floor_le_floor hb2
    simpa using h
  simp only [computePwm, LOW_TEMP_cast, HIGH_TEMP_cast, MIN_PWM_cast, MAX_PWM_cast]
  rw [if_neg (by linarith : ¬ t < (55:ℚ)), if_neg (by linarith : ¬ t > (75:ℚ))]
  rw [if_neg (by simp only [MAX_PWM]; omega : ¬ ⌊((100:ℚ) - 50) * (t - 55) / ((75:ℚ) - 55) + 50⌋ > MAX_PWM)]
  rw [if_neg (by simp only [MIN_PWM]; omega : ¬ ⌊((100:ℚ) - 50) * (t - 55) / ((75:ℚ) - 55) + 50⌋ < MIN_PWM)]

/-! Claim theorems about the duty-cycle calculation. -/

/-- C4: for every temperature strictly below `LOW_TEMP`, a step with
run-on counter `0` yields duty `0` (fan off), and a step with run-on
counter `k > 0` yields duty `MIN_PWM` and decrements the counter to
exactly `k - 1`. -/
theorem computePwm_below_low (r : ℤ) (t : ℚ) (h : t < ((LOW_TEMP : ℤ) : ℚ)) :
    (r = 0 → (computePwm r t).1 = 0) ∧
    (0 < r → computePwm r t = (MIN_PWM, r - 1)) := by
  refine ⟨fun h0 => ?_, fun hr => ?_⟩
  · simp [computePwm, h, h0]
  · simp [computePwm, h, hr]

/-- Witness for `computePwm_below_low` at temperature 40 with counter
values 0 and 5. -/
theorem computePwm_below_low_spot :
    (computePwm 0 40).1 = 0 ∧ computePwm 5 40 = (MIN_PWM, 4) :=
  ⟨(computePwm_below_low 0 40 (by decide)).1 rfl,
   (computePwm_below_low 5 40 (by decide)).2 (by decide)⟩

/-- C1 counterexample: at temperature 80 (strictly above `HIGH_TEMP`)
with run-on counter 0, the step yields duty `MAX_PWM` but leaves the
counter at 0 instead of resetting it to `RUNONLOOPS = 15`: the
`temp > HIGH_TEMP` branch of pfand.c does not touch `runOn`. -/
theorem computePwm_above_high_cex :
    ((HIGH_TEMP : ℤ) : ℚ) < 80 ∧ RUNONLOOPS = 15 ∧
      ¬ ((computePwm 0 80).1 = MAX_PWM ∧ (computePwm 0 80).2 = RUNONLOOPS) := by
  decide

/-- C1 amended: for every temperature strictly above `HIGH_TEMP`, a step
yields duty `MAX_PWM` and leaves the run-on counter unchanged. -/
theorem computePwm_above_high (r : ℤ) (t : ℚ) (h : ((HIGH_TEMP : ℤ) : ℚ) < t) :
    computePwm r t = (MAX_PWM, r) := by
  have hlow : ¬ t < ((LOW_TEMP : ℤ) : ℚ) := by
    rw [LOW_TEMP_cast]
    rw [HIGH_TEMP_cast] at h
    linarith
  simp [computePwm, hlow, h]

/-- Witness for `computePwm_above_high` at temperature 80 with counter 0. -/
theorem computePwm_above_high_spot : computePwm 0 80 = (MAX_PWM, 0) :=
  computePwm_above_high 0 80 (by decide)

/-- C5: for every temperature in the inclusive band
`[LOW_TEMP, HIGH_TEMP]`, the step yields the floor of
`MIN_PWM + (MAX_PWM - MIN_PWM) * (t - LOW_TEMP) / (HIGH_TEMP - LOW_TEMP)`;
in particular the band boundaries yield exactly `MIN_PWM` and `MAX_PWM`. -/
theorem computePwm_band_formula (r : ℤ) (t : ℚ)
    (h1 : ((LOW_TEMP : ℤ) : ℚ) ≤ t) (h2 : t ≤ ((HIGH_TEMP : ℤ) : ℚ)) :
    (computePwm r t).1 =
      ⌊((MIN_PWM : ℤ) : ℚ) +
          (((MAX_PWM : ℤ) : ℚ) - ((MIN_PWM : ℤ) : ℚ)) * (t - ((LOW_TEMP : ℤ) : ℚ)) /
            (((HIGH_TEMP : ℤ) : ℚ) - ((LOW_TEMP : ℤ) : ℚ))⌋ ∧
    (computePwm r ((LOW_TEMP : ℤ) : ℚ)).1 = MIN_PWM ∧
    (computePwm r ((HIGH_TEMP : ℤ) : ℚ)).1 = MAX_PWM := by
  simp only [LOW_TEMP_cast, HIGH_TEMP_cast, MIN_PWM_cast, MAX_PWM_cast] at h1 h2 ⊢
  refine ⟨?_, ?_, ?_⟩
  · rw [computePwm_in_band r t h1 h2]
    show ⌊((100:ℚ) - 50) * (t - 55) / ((75:ℚ) - 55) + 50⌋ = _
    congr 1
    ring
  · rw [computePwm_in_band r 55 (by norm_num) (by norm_num)]
    norm_num [MIN_PWM]
  · rw [computePwm_in_band r 75 (by norm_num) (by norm_num)]
    norm_num [MAX_PWM]

/-- Witness for `computePwm_band_formula` at temperature 60 with counter 0. -/
theorem computePwm_band_formula_spot :
    (computePwm 0 60).1 =
      ⌊((MIN_PWM : ℤ) : ℚ) +
          (((MAX_PWM : ℤ) : ℚ) - ((MIN_PWM : ℤ) : ℚ)) * ((60:ℚ) - ((LOW_TEMP : ℤ) : ℚ)) /
            (((HIGH_TEMP : ℤ) : ℚ) - ((LOW_TEMP : ℤ) : ℚ))⌋ ∧
    (computePwm 0 ((LOW_TEMP : ℤ) : ℚ)).1 = MIN_PWM ∧
    (computePwm 0 ((HIGH_TEMP : ℤ) : ℚ)).1 = MAX_PWM :=
  computePwm_band_formula 0 60 (by decide) (by decide)

/-- C6: the duty yielded for in-band temperatures is monotone: for
`LOW_TEMP <= t1 < t2 <= HIGH_TEMP` (and any run-on counters), the duty
yielded for `t1` is at most the duty yielded for `t2`. -/
theorem computePwm_band_mono (r1 r2 : ℤ) (t1 t2 : ℚ)
    (h1 : ((LOW_TEMP : ℤ) : ℚ) ≤ t1) (h12 : t1 < t2)
    (h2 : t2 ≤ ((HIGH_TEMP : ℤ) : ℚ)) :
    (computePwm r1 t1).1 ≤ (computePwm r2 t2).1 := by
  rw [LOW_TEMP_cast] at h1
  rw [HIGH_TEMP_cast] at h2
  rw [computePwm_in_band r1 t1 h1 (by linarith), computePwm_in_band r2 t2 (by linarith) h2]
  apply Int.floor_le_floor
  ring_nf
  linarith

/-- Witness for `computePwm_band_mono` at temperatures 60 and 70. -/
theorem computePwm_band_mono_spot : (computePwm 0 60).1 ≤ (computePwm 0 70).1 :=
  computePwm_band_mono 0 0 60 70 (by decide) (by decide) (by decide)

/-- C3: starting from `prevP = 0`, a loop iteration whose computed duty
`p` is positive passes exactly `KICK_PWM` and then `p` to the PWM sink,
in that order with no intermediate value; starting from `prevP > 0`, the
iteration passes exactly `p` and no kick occurs. -/
theorem tick_kick_sequencing (s : CState) (t : ℚ) :
    (s.prevP = 0 → 0 < (computePwm s.runOn t).1 →
      (tick s t).2 = [KICK_PWM, (computePwm s.runOn t).1]) ∧
    (0 < s.prevP → (tick s t).2 = [(computePwm s.runOn t).1]) := by
  constructor
  · intro h0 hp
    simp [tick, h0, hp]
  · intro hp
    have : ¬ s.prevP = 0 := by omega
    simp [tick, this]

/-- Witness for `tick_kick_sequencing`: at temperature 80 the computed
duty is `MAX_PWM`, so from rest the commands are the kick followed by the
duty, and from a running fan the single duty command. -/
theorem tick_kick_sequencing_spot :
    (tick { runOn := 0, prevP := 0 } 80).2 = [KICK_PWM, (computePwm 0 80).1] ∧
    (tick { runOn := 0, prevP := 100 } 80).2 = [(computePwm 0 80).1] :=
  ⟨(tick_kick_sequencing { runOn := 0, prevP := 0 } 80).1 rfl (by decide),
   (tick_kick_sequencing { runOn := 0, prevP := 100 } 80).2 (by decide)⟩

/-- Every duty produced by the duty-cycle calculation is either 0 or lies
in the band from `MIN_PWM` to `MAX_PWM`: the low branch yields 0 or
`MIN_PWM`, the high branch `MAX_PWM`, and the in-band branch is clamped. -/
lemma computePwm_duty_range (r : ℤ) (t : ℚ) :
    (computePwm r t).1 = 0 ∨ (MIN_PWM ≤ (computePwm r t).1 ∧ (computePwm r t).1 ≤ MAX_PWM) := by
  simp only [computePwm, MIN_PWM, MAX_PWM]
  split_ifs <;> simp_all

/-- Every duty passed to `setFanSpeed` in one loop iteration is either 0
or lies in the band from `MIN_PWM` to `MAX_PWM`. -/
lemma tick_duty_range (s : CState) (t : ℚ) (d : ℤ) (hd : d ∈ (tick s t).2) :
    d = 0 ∨ (MIN_PWM ≤ d ∧ d ≤ MAX_PWM) := by
  simp only [tick, List.mem_append, List.mem_singleton] at hd
  rcases hd with hd | hd
  · rcases Classical.em (0 < (computePwm s.runOn t).1 ∧ s.prevP = 0) with hc | hc
    · rw [if_pos hc] at hd
      simp only [List.mem_singleton] at hd
      subst hd
      right
      constructor <;> decide
    · rw [if_neg hc] at hd
      simp at hd
  · subst hd
    exact computePwm_duty_range s.runOn t

/-- Every duty passed to `setFanSpeed` by the control loop is either 0 or
lies in the band from `MIN_PWM` to `MAX_PWM`. -/
lemma runLoop_duty_range (reads : List SensorRead) (s : CState) (d : ℤ)
    (hd : d ∈ runLoop s reads) :
    d = 0 ∨ (MIN_PWM ≤ d ∧ d ≤ MAX_PWM) := by
  induction reads generalizing s with
  | nil => simp [runLoop] at hd
  | cons r rest ih =>
    simp only [runLoop, List.mem_append] at hd
    rcases hd with hd | hd
    · exact tick_duty_range s (getTemp r) d hd
    · exact ih (tick s (getTemp r)).1 hd

/-- C7: every duty value the program ever passes to `setFanSpeed` — the
startup warm-up pulse, every kick pulse and every steady-state duty — is
either 0 or lies within the band from `MIN_PWM` to `MAX_PWM`; 0 is the
only value ever commanded outside that band. -/
theorem pfand_duty_range (startup : SensorRead) (reads : List SensorRead)
    (cmds : List ℤ) (hrun : pfand startup reads = some cmds) :
    ∀ d ∈ cmds, d = 0 ∨ (MIN_PWM ≤ d ∧ d ≤ MAX_PWM) := by
  intro d hd
  unfold pfand at hrun
  split_ifs at hrun
  rcases Option.some_inj.mp hrun with h
  subst h
  rcases List.mem_cons.mp hd with h | h
  · subst h
    right
    constructor <;> decide
  · exact runLoop_duty_range reads CState.init d h

/-- Witness for `pfand_duty_range`: the kick pulse 70 appears in the
trace for startup read 80 and one tick at 80, and lies in the band. -/
theorem pfand_duty_range_spot :
    (70:ℤ) = 0 ∨ (MIN_PWM ≤ (70:ℤ) ∧ (70:ℤ) ≤ MAX_PWM) :=
  pfand_duty_range (SensorRead.ok 80) [SensorRead.ok 80] [100, 70, 100]
    (by decide) 70 (by decide)

/-- C8: if the single read-and-validate at startup yields the sentinel 0,
the program exits with a fatal error before the warm-up pulse and before
the control loop, so `setFanSpeed` is never invoked. -/
theorem pfand_startup_abort (startup : SensorRead) (reads : List SensorRead)
    (h : getTemp startup = 0) : pfand startup reads = none := by
  simp [pfand, h]

/-- Witness for `pfand_startup_abort` with a missing sensor file and an
arbitrary tick list. -/
theorem pfand_startup_abort_spot :
    pfand SensorRead.noFile [SensorRead.ok 80] = none :=
  pfand_startup_abort SensorRead.noFile [SensorRead.ok 80] rfl

/-- C9: a failure to open the PWM device for writing is non-fatal and
invisible to the controller: the command is dropped (nothing is written),
the state transition of every iteration is independent of device
availability, and each iteration attempts the same number of writes
regardless of availability, so the next tick retries naturally. -/
theorem setFanSpeed_failure_nonfatal :
    (∀ d : ℤ, setFanSpeed false d = none) ∧
    (∀ (s : CState) (inputs : List (SensorRead × Bool)),
      (runLoopDev s inputs).1 = loopState s (inputs.map Prod.fst)) ∧
    (∀ (s : CState) (r : SensorRead) (b : Bool),
      ((tickDev s r b).2).length = ((tick s (getTemp r)).2).length) := by
  refine ⟨fun d => rfl, fun s inputs => ?_, fun s r b => by simp [tickDev]⟩
  induction inputs generalizing s with
  | nil => rfl
  | cons p rest ih =>
    cases p with
    | mk r b => simp [runLoopDev, loopState, tickDev, ih]

/-- C2 (code behaviour at a failed read): a sensor failure during the
loop is not skipped; pfand.c feeds the sentinel temperature 0 into the
control calculation, which takes the below-low-temperature path.  From
state `runOn = 15`, `prevP = 100`, the iteration commands duty
`MIN_PWM = 50` instead of keeping 100, and decrements the counter. -/
theorem tick_sensor_failure_not_skipped :
    getTemp SensorRead.noFile = 0 ∧
    tick { runOn := 15, prevP := 100 } (getTemp SensorRead.noFile) =
      ({ runOn := 14, prevP := 50 }, [50]) := by
  constructor
  · rfl
  · decide

/-- C10: `getTemp` only ever returns whole numbers of degrees (the sensor
file is parsed with `fscanf("%d", ...)` and the integer cast to float),
and a file that exists but does not parse yields the same sentinel 0 as a
missing file. -/
theorem getTemp_integral_and_sentinel :
    (∀ r : SensorRead, ∃ n : ℤ, getTemp r = (n : ℚ)) ∧
    getTemp SensorRead.parseFail = getTemp SensorRead.noFile ∧
    getTemp SensorRead.noFile = 0 := by
  refine ⟨fun r => ?_, rfl, rfl⟩
  cases r with
  | noFile => exact ⟨0, by norm_num [getTemp]⟩
  | parseFail => exact ⟨0, by norm_num [getTemp]⟩
  | ok v => exact ⟨v, rfl⟩
